import Mathlib

/-!
Shallow embedding of the WordAhead frontend controller
(`src/wordahead-frontend/src/components/GPTSMReader.jsx`).

The component keeps six pieces of React state (input buffer, processed
word list, loading flag, error message, selected word, sidebar flag).
The two event handlers `handleAnalyze` and `handleWordClick` and the
`closeSidebar` callback are embedded as pure functions: each network
call is represented by an explicit outcome value, each `setXxx` call by
an explicit state effect, and the `setTimeout` in `closeSidebar` by an
explicit timer deadline.  The word-list JSX render is embedded as a
pure function from the annotation list to rendered spans.
-/

namespace WordAhead

/-- One `{english, hebrew}` example-sentence record of a word annotation. -/
structure ExampleSentence where
  english : String
  hebrew : String
deriving DecidableEq, Repr

/-- A per-word record of the analysis response (`data.words` element).
Optional fields are `none` when the JSON key is absent. -/
structure WordData where
  word : String
  importance : Nat
  opacity : Rat
  cefr_level : Option String := none
  root : Option String := none
  translation : Option String := none
  transliteration : Option String := none
  example_sentences : Option (List ExampleSentence) := none
  note : Option String := none
deriving DecidableEq, Repr

/-- The JSON object returned by `GET /api/translate/word/...`; each field is
`some` exactly when the corresponding key is present in the response. -/
structure TranslationData where
  translation : Option String := none
  transliteration : Option String := none
  cefr_level : Option String := none
  root : Option String := none
  example_sentences : Option (List ExampleSentence) := none
  note : Option String := none
deriving DecidableEq, Repr

/-- The JS spread of wordData then translationData (source line 63): a
shallow merge in which every key present in the translation response
overwrites the value in the annotation, and absent keys leave the value
of the annotation alone. -/
def mergeWord (w : WordData) (t : TranslationData) : WordData :=
  { word := w.word
    importance := w.importance
    opacity := w.opacity
    cefr_level := t.cefr_level.orElse fun _ => w.cefr_level
    root := t.root.orElse fun _ => w.root
    translation := t.translation.orElse fun _ => w.translation
    transliteration := t.transliteration.orElse fun _ => w.transliteration
    example_sentences := t.example_sentences.orElse fun _ => w.example_sentences
    note := t.note.orElse fun _ => w.note }

/-- Drop leading whitespace characters from a character list. -/
def trimLeftChars : List Char → List Char
  | [] => []
  | c :: cs => if c.isWhitespace then trimLeftChars cs else c :: cs

/-- The JS `String.prototype.trim()`: remove leading and trailing
whitespace (trailing = leading of the reversed list). -/
def jsTrim (s : String) : String :=
  String.mk (((trimLeftChars s.data).reverse |> trimLeftChars).reverse)

/-- The React state of the component (`useState` hooks, source lines 7-12). -/
structure ReaderState where
  inputText : String
  processedWords : List WordData
  isLoading : Bool
  error : Option String
  selectedWord : Option WordData
  sidebarOpen : Bool
deriving DecidableEq, Repr

/-- The initial state of the `useState` hooks. -/
def initialState : ReaderState :=
  { inputText := ""
    processedWords := []
    isLoading := false
    error := none
    selectedWord := none
    sidebarOpen := false }

/-- One `setXxx` state-setter call. -/
inductive Effect where
  | setInputText (v : String)
  | setProcessedWords (ws : List WordData)
  | setIsLoading (b : Bool)
  | setError (e : Option String)
  | setSelectedWord (w : Option WordData)
  | setSidebarOpen (b : Bool)
deriving DecidableEq, Repr

/-- Apply one state-setter to the component state. -/
def applyEffect (s : ReaderState) : Effect → ReaderState
  | Effect.setInputText v => { s with inputText := v }
  | Effect.setProcessedWords ws => { s with processedWords := ws }
  | Effect.setIsLoading b => { s with isLoading := b }
  | Effect.setError e => { s with error := e }
  | Effect.setSelectedWord w => { s with selectedWord := w }
  | Effect.setSidebarOpen b => { s with sidebarOpen := b }

/-- Apply a sequence of state-setters left to right (program order). -/
def applyEffects (s : ReaderState) (es : List Effect) : ReaderState :=
  es.foldl applyEffect s

inductive HttpMethod where
  | get
  | post
deriving DecidableEq, Repr

/-- The JSON body `{ text: ... }` of the analysis POST. -/
structure PostBody where
  text : String
deriving DecidableEq, Repr

/-- A network request issued by a handler. -/
structure Request where
  method : HttpMethod
  url : String
  body : Option PostBody
deriving DecidableEq, Repr

/-- Default API base URL: the fallback of
`import.meta.env.VITE_API_URL || ...` on source line 4. -/
def API_URL : String := "http://localhost:5000"

/-- `response.ok`: the HTTP status is in the 2xx range. -/
def responseOk (status : Nat) : Bool :=
  decide (200 ≤ status) && decide (status ≤ 299)

/-- Parsed JSON body of the analysis response; `words := none` when the
`words` key is absent (or null), so that `data.words` is falsy. -/
structure AnalyzeBody where
  words : Option (List WordData)
deriving DecidableEq, Repr

/-- Result of `response.json()`: the body parses, or the promise rejects
with an error message. -/
inductive BodyParse where
  | parsed (data : AnalyzeBody)
  | parseFailure (msg : String)
deriving DecidableEq, Repr

/-- Outcome of the analysis `fetch`: either the fetch itself rejects
(network failure), or a response with a status arrives whose JSON body
parses or fails to parse. -/
inductive AnalyzeOutcome where
  | networkFailure (msg : String)
  | httpResponse (status : Nat) (body : BodyParse)
deriving DecidableEq, Repr

/-- The `handleAnalyze` handler (source lines 14-53), as a pure function of
the current state and the outcome of the analysis request.  Returns the
program-order list of state-setter calls and the list of network requests
issued.  A blank (whitespace-only) buffer returns early with a validation
message and no request; otherwise the handler sets loading, clears the
error, issues one POST, and branches on the outcome exactly as the
`try/catch/finally` does, always clearing the loading flag at the end. -/
def handleAnalyze (s : ReaderState) (o : AnalyzeOutcome) : List Effect × List Request :=
  if jsTrim s.inputText = "" then
    ([Effect.setError (some "Please enter some text to analyze")], [])
  else
    let req : Request :=
      { method := HttpMethod.post
        url := API_URL ++ "/api/process-text"
        body := some { text := s.inputText } }
    let branch : List Effect :=
      match o with
      | AnalyzeOutcome.networkFailure msg =>
          [Effect.setError (some ("Failed to process text: " ++ msg))]
      | AnalyzeOutcome.httpResponse status body =>
          if responseOk status then
            match body with
            | BodyParse.parseFailure msg =>
                [Effect.setError (some ("Failed to process text: " ++ msg))]
            | BodyParse.parsed data =>
                match data.words with
                | some ws =>
                    if 0 < ws.length then
                      [Effect.setProcessedWords ws, Effect.setError none]
                    else
                      [Effect.setError (some "No words returned from server")]
                | none =>
                    [Effect.setError (some "No words returned from server")]
          else
            [Effect.setError (some ("Failed to process text: Server error: " ++ toString status))]
    ([Effect.setIsLoading true, Effect.setError none] ++ branch ++ [Effect.setIsLoading false],
     [req])

/-- The requests issued by one `handleAnalyze` call. -/
def analyzeRequests (s : ReaderState) (o : AnalyzeOutcome) : List Request :=
  (handleAnalyze s o).2

/-- The component state after one complete `handleAnalyze` call. -/
def analyzeFinal (s : ReaderState) (o : AnalyzeOutcome) : ReaderState :=
  applyEffects s (handleAnalyze s o).1

/-- Whether the analysis outcome takes the success branch of line 41
(`data.words && data.words.length > 0`). -/
def analyzeSucceeded (o : AnalyzeOutcome) : Bool :=
  match o with
  | AnalyzeOutcome.httpResponse status (BodyParse.parsed data) =>
      responseOk status &&
        (match data.words with
         | some ws => decide (0 < ws.length)
         | none => false)
  | _ => false

/-- One rendered word span of the results section (source lines 106-115). -/
structure RenderedWord where
  text : String
  className : String
  opacity : Rat
  clickTarget : WordData
deriving DecidableEq, Repr

/-- Render one annotation as its span: the text is the word plus a trailing
space, the class is `word importance-<importance>`, the inline style opacity
is the `opacity` field of the annotation, and the click handler receives the
annotation itself. -/
def renderWord (w : WordData) : RenderedWord :=
  { text := w.word ++ " "
    className := "word importance-" ++ toString w.importance
    opacity := w.opacity
    clickTarget := w }

/-- `processedWords.map(...)`: the rendered word list. -/
def renderWords (ws : List WordData) : List RenderedWord :=
  ws.map renderWord

/-- The guard `processedWords.length > 0 && ...` of the results section
(source line 102): whether any word list is rendered at all. -/
def rendersWordList (s : ReaderState) : Bool :=
  decide (0 < s.processedWords.length)

/-- The synchronous prefix of `handleWordClick` (source lines 56-57):
the clicked annotation becomes the selection and the sidebar opens,
before the translation fetch resolves. -/
def handleWordClickStart (s : ReaderState) (w : WordData) : ReaderState :=
  { s with selectedWord := some w, sidebarOpen := true }

/-- The continuation of `handleWordClick` after the translation fetch
resolves (source line 63): the selection is overwritten with the shallow
merge of the captured `wordData` closure and the response, with no check
that the selection is still that word. -/
def handleWordClickResolve (s : ReaderState) (w : WordData) (t : TranslationData) : ReaderState :=
  { s with selectedWord := some (mergeWord w t) }

/-- Outcome of the translation fetch-and-parse. -/
inductive TranslationOutcome where
  | ok (t : TranslationData)
  | failed (msg : String)
deriving DecidableEq, Repr

/-- One complete `handleWordClick` call (source lines 55-67) with no
interleaving: the synchronous prefix followed by either the merge on
success or, on any failure, only a console log (`console.error`), whose
entries are returned in the second component. -/
def handleWordClickRun (s : ReaderState) (w : WordData) (o : TranslationOutcome) :
    ReaderState × List String :=
  let s1 := handleWordClickStart s w
  match o with
  | TranslationOutcome.ok t => (handleWordClickResolve s1 w t, [])
  | TranslationOutcome.failed msg => (s1, ["Translation error: " ++ msg])

/-- The translation line of the sidebar (source line 149):
`selectedWord.translation` with the Hebrew loading placeholder as the
falsy fallback. -/
def panelTranslationText (w : WordData) : String :=
  w.translation.getD "טוען..."

/-- Component state together with the deadlines of pending
`setTimeout(() => setSelectedWord(null), 300)` timers. -/
structure TimedState where
  reader : ReaderState
  pendingClears : List Nat
deriving DecidableEq, Repr

/-- `closeSidebar` (source lines 69-72) at wall-clock time `now`: the
sidebar flag is cleared immediately and a timer that will null the
selection is scheduled for `now + 300` milliseconds. -/
def closeSidebar (now : Nat) (ts : TimedState) : TimedState :=
  { reader := { ts.reader with sidebarOpen := false }
    pendingClears := ts.pendingClears ++ [now + 300] }

/-- Advance the clock to time `t`: every timer whose deadline has passed
fires (each one sets the selection to null) and is removed. -/
def runDueTimers (t : Nat) (ts : TimedState) : TimedState :=
  { reader :=
      if ts.pendingClears.any (fun d => decide (d ≤ t)) then
        { ts.reader with selectedWord := none }
      else
        ts.reader
    pendingClears := ts.pendingClears.filter (fun d => decide (t < d)) }

/-- A sample annotation, as produced by a successful earlier analysis. -/
def priorCat : WordData := { word := "cat", importance := 4, opacity := 1 }

/-- A state in which an earlier analysis already produced one word and a
new input has been typed. -/
def priorState : ReaderState :=
  { initialState with inputText := "more text", processedWords := [priorCat] }

/-- A 200 analysis response whose `words` field is the empty sequence. -/
def emptyWordsOutcome : AnalyzeOutcome :=
  AnalyzeOutcome.httpResponse 200 (BodyParse.parsed { words := some [] })

/-- A sample annotation whose `opacity` disagrees with the canonical
legend value for its `importance` bucket, to exhibit that the renderer
passes `opacity` through untouched. -/
def oddCat : WordData := { word := "cat", importance := 4, opacity := 1/2 }

/-- A second sample annotation with a different word text. -/
def dogWord : WordData := { word := "dog", importance := 2, opacity := 1/2 }

/-- A sample translation response carrying translation fields. -/
def catTranslationResp : TranslationData :=
  { translation := some "cat-he", transliteration := some "cat-tr" }

/-- A timed state whose panel is open on a selected word, with no timer
pending. -/
def openClosingState : TimedState :=
  { reader := { initialState with selectedWord := some priorCat, sidebarOpen := true }
    pendingClears := [] }

/-- Claim C3: for every input buffer that is empty or whitespace-only
after trimming, `handleAnalyze` issues no network call and sets the error
message to exactly "Please enter some text to analyze". -/
theorem analyze_blank_input_no_request (s : ReaderState) (o : AnalyzeOutcome)
    (h : jsTrim s.inputText = "") :
    analyzeRequests s o = [] ∧
    (analyzeFinal s o).error = some "Please enter some text to analyze" := by
  constructor <;> simp [analyzeRequests, analyzeFinal, handleAnalyze, h, applyEffects, applyEffect]

/-- Witness for claim C3 at the concrete whitespace-only buffer. -/
theorem analyze_blank_input_no_request_witness :
    jsTrim "  \t " = "" ∧
    (analyzeRequests { initialState with inputText := "  \t " } (AnalyzeOutcome.networkFailure "x") = [] ∧
     (analyzeFinal { initialState with inputText := "  \t " }
        (AnalyzeOutcome.networkFailure "x")).error = some "Please enter some text to analyze") :=
  ⟨by decide,
   analyze_blank_input_no_request { initialState with inputText := "  \t " }
     (AnalyzeOutcome.networkFailure "x") (by decide)⟩

/-- Claim C4: for every analysis response with a non-2xx HTTP status
`status`, `handleAnalyze` sets the error message to exactly
"Failed to process text: Server error: status". -/
theorem analyze_server_error_message (s : ReaderState) (status : Nat) (b : BodyParse)
    (hvalid : ¬ jsTrim s.inputText = "") (hstatus : responseOk status = false) :
    (analyzeFinal s (AnalyzeOutcome.httpResponse status b)).error =
      some ("Failed to process text: Server error: " ++ toString status) := by
  simp [analyzeFinal, handleAnalyze, hvalid, hstatus, applyEffects, applyEffect]

/-- Witness for claim C4 at status 500: the message is the literal
"Failed to process text: Server error: 500". -/
theorem analyze_server_error_message_witness :
    (¬ jsTrim "hello" = "") ∧ responseOk 500 = false ∧
    (analyzeFinal { initialState with inputText := "hello" }
        (AnalyzeOutcome.httpResponse 500 (BodyParse.parsed { words := some [] }))).error =
      some "Failed to process text: Server error: 500" :=
  ⟨by decide, by decide,
   analyze_server_error_message { initialState with inputText := "hello" } 500
     (BodyParse.parsed { words := some [] }) (by decide) (by decide)⟩

/-- Counterexample to claim C1 as stated: after an earlier successful
analysis, an empty-`words` response sets the error message but the stored
word sequence still renders its one word, so it is false that no word
list is rendered. -/
theorem analyze_empty_words_still_renders_prior :
    (analyzeFinal priorState emptyWordsOutcome).error = some "No words returned from server" ∧
    rendersWordList (analyzeFinal priorState emptyWordsOutcome) = true ∧
    renderWords (analyzeFinal priorState emptyWordsOutcome).processedWords =
      [renderWord priorCat] := by decide

/-- Claim C1 (amended): a successful analysis response whose `words` field
is missing or empty sets the error message to exactly
"No words returned from server" and leaves the stored word sequence
unchanged; when the stored sequence was empty before the call, no word
list is rendered. -/
theorem analyze_empty_words_message (s : ReaderState) (status : Nat) (w : Option (List WordData))
    (hvalid : ¬ jsTrim s.inputText = "") (hok : responseOk status = true)
    (hempty : w = none ∨ w = some []) :
    (analyzeFinal s (AnalyzeOutcome.httpResponse status (BodyParse.parsed { words := w }))).error =
      some "No words returned from server" ∧
    (analyzeFinal s (AnalyzeOutcome.httpResponse status
        (BodyParse.parsed { words := w }))).processedWords = s.processedWords ∧
    (s.processedWords = [] →
      rendersWordList (analyzeFinal s (AnalyzeOutcome.httpResponse status
        (BodyParse.parsed { words := w }))) = false) := by
  rcases hempty with h | h <;> subst h <;>
    refine ⟨?_, ?_, fun hnil => ?_⟩ <;>
    simp [analyzeFinal, handleAnalyze, hvalid, hok, applyEffects, applyEffect, rendersWordList, *]

/-- Witness for amended claim C1 at a fresh session with a 200 response
carrying an empty `words` sequence. -/
theorem analyze_empty_words_message_witness :
    (¬ jsTrim "text" = "") ∧ responseOk 200 = true ∧
    ((analyzeFinal { initialState with inputText := "text" }
        (AnalyzeOutcome.httpResponse 200 (BodyParse.parsed { words := some [] }))).error =
      some "No words returned from server" ∧
     (analyzeFinal { initialState with inputText := "text" }
        (AnalyzeOutcome.httpResponse 200
          (BodyParse.parsed { words := some [] }))).processedWords = ([] : List WordData) ∧
     (([] : List WordData) = [] →
       rendersWordList (analyzeFinal { initialState with inputText := "text" }
         (AnalyzeOutcome.httpResponse 200 (BodyParse.parsed { words := some [] }))) = false)) :=
  ⟨by decide, by decide,
   analyze_empty_words_message { initialState with inputText := "text" } 200 (some [])
     (by decide) (by decide) (Or.inr rfl)⟩

/-- Claim C8: for every valid (non-blank) buffer, `handleAnalyze` issues
exactly one POST to the analysis endpoint whose body is the raw
(untrimmed) buffer, and its first two state-setter calls set loading and
clear the prior error. -/
theorem analyze_valid_input_posts_once (s : ReaderState) (o : AnalyzeOutcome)
    (hvalid : ¬ jsTrim s.inputText = "") :
    analyzeRequests s o =
      [{ method := HttpMethod.post, url := API_URL ++ "/api/process-text",
         body := some { text := s.inputText } }] ∧
    (handleAnalyze s o).1.take 2 = [Effect.setIsLoading true, Effect.setError none] ∧
    (applyEffects s [Effect.setIsLoading true, Effect.setError none]).isLoading = true ∧
    (applyEffects s [Effect.setIsLoading true, Effect.setError none]).error = none := by
  refine ⟨?_, ?_, rfl, rfl⟩ <;>
    simp [analyzeRequests, handleAnalyze, hvalid, List.take]

/-- Witness for claim C8 at a buffer with surrounding whitespace: the
POST body carries the untrimmed buffer. -/
theorem analyze_valid_input_posts_once_witness :
    (¬ jsTrim "  hi  " = "") ∧
    (analyzeRequests { initialState with inputText := "  hi  " } (AnalyzeOutcome.networkFailure "x") =
      [{ method := HttpMethod.post, url := API_URL ++ "/api/process-text",
         body := some { text := "  hi  " } }] ∧
     (handleAnalyze { initialState with inputText := "  hi  " }
        (AnalyzeOutcome.networkFailure "x")).1.take 2 =
       [Effect.setIsLoading true, Effect.setError none] ∧
     (applyEffects { initialState with inputText := "  hi  " }
        [Effect.setIsLoading true, Effect.setError none]).isLoading = true ∧
     (applyEffects { initialState with inputText := "  hi  " }
        [Effect.setIsLoading true, Effect.setError none]).error = none) :=
  ⟨by decide,
   analyze_valid_input_posts_once { initialState with inputText := "  hi  " }
     (AnalyzeOutcome.networkFailure "x") (by decide)⟩

/-- Claim C9: for every `handleAnalyze` call that passes the non-blank
precondition, whatever the outcome of the analysis request, the loading
flag is cleared when the call completes. -/
theorem analyze_always_clears_loading (s : ReaderState) (o : AnalyzeOutcome)
    (hvalid : ¬ jsTrim s.inputText = "") :
    (analyzeFinal s o).isLoading = false := by
  simp only [analyzeFinal, handleAnalyze, if_neg hvalid]
  simp [applyEffects, List.foldl_append, applyEffect]

/-- Witness for claim C9 at a network failure starting from a loading
state. -/
theorem analyze_always_clears_loading_witness :
    (¬ jsTrim "go" = "") ∧
    (analyzeFinal { initialState with inputText := "go", isLoading := true }
      (AnalyzeOutcome.networkFailure "boom")).isLoading = false :=
  ⟨by decide,
   analyze_always_clears_loading { initialState with inputText := "go", isLoading := true }
     (AnalyzeOutcome.networkFailure "boom") (by decide)⟩

/-- Claim C10: every `handleAnalyze` call that ends in an error (blank
input, non-2xx status, empty or missing `words`, or network/parse
failure) leaves the stored word sequence unchanged, and so still renders
exactly what was rendered before, alongside an error message. -/
theorem analyze_error_preserves_words (s : ReaderState) (o : AnalyzeOutcome)
    (h : jsTrim s.inputText = "" ∨ analyzeSucceeded o = false) :
    (analyzeFinal s o).processedWords = s.processedWords ∧
    (analyzeFinal s o).error.isSome = true ∧
    rendersWordList (analyzeFinal s o) = rendersWordList s := by
  by_cases hb : jsTrim s.inputText = ""
  · simp [analyzeFinal, handleAnalyze, hb, applyEffects, applyEffect, rendersWordList]
  · have ho : analyzeSucceeded o = false := h.resolve_left hb
    rcases o with msg | ⟨status, body⟩
    · simp [analyzeFinal, handleAnalyze, hb, applyEffects, applyEffect, rendersWordList]
    · rcases body with data | msg
      · by_cases hok : responseOk status
        · rcases hw : data.words with _ | ws
          · simp [analyzeFinal, handleAnalyze, hb, hok, hw, applyEffects, applyEffect,
              rendersWordList]
          · have hlen : ¬ 0 < ws.length := by
              simp [analyzeSucceeded, hok, hw] at ho
              simpa using ho
            simp [analyzeFinal, handleAnalyze, hb, hok, hw, hlen, applyEffects, applyEffect,
              rendersWordList]
        · simp [analyzeFinal, handleAnalyze, hb, hok, applyEffects, applyEffect, rendersWordList]
      · by_cases hok : responseOk status <;>
          simp [analyzeFinal, handleAnalyze, hb, hok, applyEffects, applyEffect, rendersWordList]

/-- Witness for claim C10: a server error after a successful analysis
keeps the earlier word list intact and rendered. -/
theorem analyze_error_preserves_words_witness :
    (jsTrim "w" = "" ∨ analyzeSucceeded (AnalyzeOutcome.httpResponse 500
        (BodyParse.parsed { words := some [priorCat] })) = false) ∧
    ((analyzeFinal priorState (AnalyzeOutcome.httpResponse 500
        (BodyParse.parsed { words := some [priorCat] }))).processedWords =
      priorState.processedWords ∧
     (analyzeFinal priorState (AnalyzeOutcome.httpResponse 500
        (BodyParse.parsed { words := some [priorCat] }))).error.isSome = true ∧
     rendersWordList (analyzeFinal priorState (AnalyzeOutcome.httpResponse 500
        (BodyParse.parsed { words := some [priorCat] }))) = rendersWordList priorState) :=
  ⟨Or.inr (by decide),
   analyze_error_preserves_words priorState
     (AnalyzeOutcome.httpResponse 500 (BodyParse.parsed { words := some [priorCat] }))
     (Or.inr (by decide))⟩

/-- Claim C7: every received annotation is rendered as a clickable span
whose opacity is exactly the `opacity` field of the annotation and whose
class is derived from its `importance`; opacity is never recomputed from
importance (it is passed through for any annotation, including one whose
opacity disagrees with the canonical legend value for its bucket). -/
theorem render_word_contract (ws : List WordData) (i : Nat) (w : WordData)
    (h : ws[i]? = some w) :
    (renderWords ws).length = ws.length ∧
    (renderWords ws)[i]? = some (renderWord w) ∧
    (renderWord w).opacity = w.opacity ∧
    (renderWord w).className = "word importance-" ++ toString w.importance ∧
    (renderWord w).clickTarget = w ∧
    (renderWord w).text = w.word ++ " " := by
  refine ⟨by simp [renderWords], ?_, rfl, rfl, rfl, rfl⟩
  simp [renderWords, List.getElem?_map, h]

/-- Witness for claim C7 at an annotation whose opacity is not the
canonical value for its importance bucket: the rendered opacity is still
the `opacity` field. -/
theorem render_word_contract_witness :
    ([oddCat])[0]? = some oddCat ∧
    ((renderWords [oddCat]).length = ([oddCat] : List WordData).length ∧
     (renderWords [oddCat])[0]? = some (renderWord oddCat) ∧
     (renderWord oddCat).opacity = oddCat.opacity ∧
     (renderWord oddCat).className = "word importance-" ++ toString oddCat.importance ∧
     (renderWord oddCat).clickTarget = oddCat ∧
     (renderWord oddCat).text = oddCat.word ++ " ") :=
  ⟨rfl, render_word_contract [oddCat] 0 oddCat rfl⟩

/-- Claim C2: `handleWordClick` immediately selects the clicked
annotation and opens the panel; when its translation fetch resolves, the
selection is overwritten with the shallow merge (response fields win) of
the clicked annotation, with no guard that the selection is still that
word — so a stale response overwrites a newer selection made in between. -/
theorem selection_race_unguarded (s : ReaderState) (w1 w2 : WordData) (t : TranslationData)
    (hne : w1.word ≠ w2.word) :
    (handleWordClickStart s w1).selectedWord = some w1 ∧
    (handleWordClickStart s w1).sidebarOpen = true ∧
    (∀ s0 : ReaderState, (handleWordClickResolve s0 w1 t).selectedWord = some (mergeWord w1 t)) ∧
    (∀ v : String, t.translation = some v → (mergeWord w1 t).translation = some v) ∧
    (mergeWord w1 t).word = w1.word ∧
    (handleWordClickResolve (handleWordClickStart (handleWordClickStart s w1) w2) w1 t).selectedWord =
      some (mergeWord w1 t) ∧
    (handleWordClickResolve (handleWordClickStart (handleWordClickStart s w1) w2) w1
        t).selectedWord ≠ some w2 := by
  refine ⟨rfl, rfl, fun s0 => rfl, ?_, rfl, rfl, ?_⟩
  · intro v hv
    simp [mergeWord, hv, Option.orElse]
  · intro hEq
    have h1 : mergeWord w1 t = w2 := Option.some.inj hEq
    have h2 : (mergeWord w1 t).word = w2.word := congrArg WordData.word h1
    rw [mergeWord] at h2
    exact hne h2

/-- Witness for claim C2: clicking cat, then dog, then letting the stale
cat translation resolve leaves the merged cat selected, not dog. -/
theorem selection_race_unguarded_witness :
    (priorCat.word ≠ dogWord.word) ∧
    ((handleWordClickStart initialState priorCat).selectedWord = some priorCat ∧
     (handleWordClickStart initialState priorCat).sidebarOpen = true ∧
     (∀ s0 : ReaderState, (handleWordClickResolve s0 priorCat catTranslationResp).selectedWord =
        some (mergeWord priorCat catTranslationResp)) ∧
     (∀ v : String, catTranslationResp.translation = some v →
        (mergeWord priorCat catTranslationResp).translation = some v) ∧
     (mergeWord priorCat catTranslationResp).word = priorCat.word ∧
     (handleWordClickResolve (handleWordClickStart (handleWordClickStart initialState priorCat)
        dogWord) priorCat catTranslationResp).selectedWord =
       some (mergeWord priorCat catTranslationResp) ∧
     (handleWordClickResolve (handleWordClickStart (handleWordClickStart initialState priorCat)
        dogWord) priorCat catTranslationResp).selectedWord ≠ some dogWord) :=
  ⟨by decide, selection_race_unguarded initialState priorCat dogWord catTranslationResp (by decide)⟩

/-- Claim C5: `closeSidebar` hides the panel immediately while the
selection data stays present; the scheduled clear never fires before 300
milliseconds have elapsed, and once they have, the selection is null. -/
theorem close_hides_panel_defers_clear (ts : TimedState) (now t1 t2 : Nat)
    (hp : ts.pendingClears = []) (h1 : t1 < now + 300) (h2 : now + 300 ≤ t2) :
    (closeSidebar now ts).reader.sidebarOpen = false ∧
    (closeSidebar now ts).reader.selectedWord = ts.reader.selectedWord ∧
    (runDueTimers t1 (closeSidebar now ts)).reader.selectedWord = ts.reader.selectedWord ∧
    (runDueTimers t2 (closeSidebar now ts)).reader.selectedWord = none := by
  refine ⟨rfl, rfl, ?_, ?_⟩
  · simp [runDueTimers, closeSidebar, hp, Nat.not_le.mpr h1]
  · simp [runDueTimers, closeSidebar, hp, h2]

/-- Witness for claim C5: closing at time 0, the selection is still
present at 299 ms and cleared at 300 ms. -/
theorem close_hides_panel_defers_clear_witness :
    (openClosingState.pendingClears = [] ∧ 299 < 0 + 300 ∧ 0 + 300 ≤ 300) ∧
    ((closeSidebar 0 openClosingState).reader.sidebarOpen = false ∧
     (closeSidebar 0 openClosingState).reader.selectedWord =
       openClosingState.reader.selectedWord ∧
     (runDueTimers 299 (closeSidebar 0 openClosingState)).reader.selectedWord =
       openClosingState.reader.selectedWord ∧
     (runDueTimers 300 (closeSidebar 0 openClosingState)).reader.selectedWord = none) :=
  ⟨⟨rfl, by decide, by decide⟩,
   close_hides_panel_defers_clear openClosingState 0 299 300 rfl (by decide) (by decide)⟩

/-- Claim C6: a failed translation fetch is only logged: the selection
keeps its unmerged fields (the panel shows the loading placeholder for a
missing translation), no user-visible error is set, and the panel
visibility is unchanged by the failure. -/
theorem translation_failure_only_logged (s : ReaderState) (w : WordData) (msg : String)
    (hw : w.translation = none) :
    (handleWordClickRun s w (TranslationOutcome.failed msg)).1 = handleWordClickStart s w ∧
    (handleWordClickRun s w (TranslationOutcome.failed msg)).1.selectedWord = some w ∧
    (handleWordClickRun s w (TranslationOutcome.failed msg)).1.error = s.error ∧
    (handleWordClickRun s w (TranslationOutcome.failed msg)).1.sidebarOpen =
      (handleWordClickStart s w).sidebarOpen ∧
    panelTranslationText w = "טוען..." ∧
    (handleWordClickRun s w (TranslationOutcome.failed msg)).2 = ["Translation error: " ++ msg] := by
  refine ⟨rfl, rfl, rfl, rfl, ?_, rfl⟩
  simp [panelTranslationText, hw]

/-- Witness for claim C6 at a concrete failed translation fetch. -/
theorem translation_failure_only_logged_witness :
    priorCat.translation = none ∧
    ((handleWordClickRun priorState priorCat (TranslationOutcome.failed "net down")).1 =
       handleWordClickStart priorState priorCat ∧
     (handleWordClickRun priorState priorCat
        (TranslationOutcome.failed "net down")).1.selectedWord = some priorCat ∧
     (handleWordClickRun priorState priorCat (TranslationOutcome.failed "net down")).1.error =
       priorState.error ∧
     (handleWordClickRun priorState priorCat
        (TranslationOutcome.failed "net down")).1.sidebarOpen =
       (handleWordClickStart priorState priorCat).sidebarOpen ∧
     panelTranslationText priorCat = "טוען..." ∧
     (handleWordClickRun priorState priorCat (TranslationOutcome.failed "net down")).2 =
       ["Translation error: " ++ "net down"]) :=
  ⟨rfl, translation_failure_only_logged priorState priorCat "net down" rfl⟩

end WordAhead
